import Mathlib

/-!
Verification of the email-sending module of Flask-User
(src/flask_user/emails.py) against its natural-language specification.

The module is embedded shallowly:
- Python strings are Lean `String`s; the single-character and literal-pattern
  replacements performed by `str.replace` are embedded as executable functions
  on character lists.
- The external collaborators (template engine, token manager, Flask-Mail
  engine, SendGrid client, user data store) are inputs: an environment record
  carries the configuration flags and the collaborator behaviour, and each
  function returns the value it produces plus a trace of the collaborator
  calls it makes.
- Python exceptions are explicit result constructors; an `assert` that fails
  is an `assert_failed` outcome carrying the effects performed before it.
-/

/-! ## Data model: User and UserEmail (external data store objects) -/

/-- User object of the host application: an id (the value of
`user.get_id()`, converted with `int(...)` in the source) and an `email`
attribute. -/
structure User where
  id : Nat
  email : String
deriving DecidableEq

/-- UserEmail association object, present only when the data store is
configured with a UserEmailClass (multiple emails per user). -/
structure UserEmail where
  user_id : Nat
  email : String
  is_primary : Bool
deriving DecidableEq

/-! ## Python string helpers

`str.replace(old, new)` for a single-character pattern and single-character
replacement is a character map; for a multi-character literal pattern it is
left-to-right, non-overlapping literal replacement. Both are embedded
executably below. -/

/-- Embeds `s.replace(c, r)` for one-character `c` and `r`: every occurrence
of the character `c` is replaced by the character `r`. -/
def pyCharReplace (s : String) (c r : Char) : String :=
  String.mk (s.data.map fun x => if x = c then r else x)

/-- Strips the literal `pat` from the front of `s`: `some rest` when `s`
starts with `pat`, `none` otherwise. -/
def dropLit : List Char → List Char → Option (List Char)
  | [], s => some s
  | _ :: _, [] => none
  | p :: ps, c :: cs => if p = c then dropLit ps cs else none

/-- Fuelled worker for literal replacement: at each position, if the pattern
starts here, emit the replacement and continue after the matched pattern,
otherwise keep the character. Fuel equal to the length of the list is always
sufficient (each step consumes at least one character). -/
def replaceFromAux (pat rep : List Char) : Nat → List Char → List Char
  | 0, s => s
  | _ + 1, [] => []
  | fuel + 1, c :: cs =>
    match dropLit pat (c :: cs) with
    | some rest => rep ++ replaceFromAux pat rep fuel rest
    | none => c :: replaceFromAux pat rep fuel cs

/-- Embeds Python `s.replace(pat, rep)` for a non-empty literal pattern
(the source only ever calls it with fixed non-empty literals; the empty
pattern case is returned unchanged and never used). -/
def pyReplace (s pat rep : String) : String :=
  match pat.data with
  | [] => s
  | _ :: _ => String.mk (replaceFromAux pat.data rep.data s.data.length s.data)

/-- Decides whether the literal `pat` occurs as a contiguous run inside
`s`. -/
def occursIn (pat : List Char) : List Char → Bool
  | [] => pat.isEmpty
  | c :: cs => (dropLit pat (c :: cs)).isSome || occursIn pat cs

/-! ## JSON encoding of the `meta` custom argument

The source builds `json.dumps({"type": typ, "friendly_from": friendly_from})`.
The encoder below produces the same output as the Python `json` module for
this two-field object of strings (default separators; the escape covers the
characters that can require escaping among the inputs the module passes).
A decoder for this exact shape is defined so that the round-trip property of
the claim can be stated and proved. -/

/-- Escapes one character for inclusion in a JSON string literal. -/
def jsonEscChar (c : Char) : List Char :=
  if c = '"' then ['\\', '"']
  else if c = '\\' then ['\\', '\\']
  else if c = '\n' then ['\\', 'n']
  else if c = '\r' then ['\\', 'r']
  else if c = '\t' then ['\\', 't']
  else [c]

/-- Escapes a whole string for inclusion in a JSON string literal. -/
def jsonEscape (s : List Char) : List Char :=
  (s.map jsonEscChar).flatten

/-- Inverse of `jsonEscChar` on the character following a backslash. -/
def unescChar (c : Char) : Option Char :=
  if c = '"' then some '"'
  else if c = '\\' then some '\\'
  else if c = 'n' then some '\n'
  else if c = 'r' then some '\r'
  else if c = 't' then some '\t'
  else none

/-- Parses the body of a JSON string literal (the part after the opening
quote), returning the decoded characters and the rest of the input after the
closing quote. -/
def parseJsonStr : List Char → Option (List Char × List Char)
  | [] => none
  | c :: cs =>
    if c = '"' then some ([], cs)
    else if c = '\\' then
      match cs with
      | [] => none
      | d :: cs2 =>
        match unescChar d, parseJsonStr cs2 with
        | some u, some (s, r) => some (u :: s, r)
        | _, _ => none
    else
      match parseJsonStr cs with
      | some (s, r) => some (c :: s, r)
      | none => none

/-- Literal opening of the JSON output: the brace, the type key, the colon
separator and the opening quote of the first value. -/
def metaLitA : List Char := "\x7b\"type\": \"".data

/-- Literal middle of the JSON output: comma separator, the friendly_from
key, the colon separator and the opening quote of the second value. -/
def metaLitB : List Char := ", \"friendly_from\": \"".data

/-- Embeds `json.dumps` applied to the two-field object built at the end of
`sg_send_email`, at the level of character lists; matches the Python output
character for character. -/
def dumpsMetaL (typ friendly_from : List Char) : List Char :=
  metaLitA ++ (jsonEscape typ ++ '"' :: (metaLitB ++ (jsonEscape friendly_from ++ '"' :: ['\x7d'])))

/-- Embeds `json.dumps` applied to the two-field object built at the end of
`sg_send_email`. -/
def dumpsMeta (typ friendly_from : String) : String :=
  String.mk (dumpsMetaL typ.data friendly_from.data)

/-- JSON decoder for the exact shape produced by `dumpsMetaL`: an object
with a string field named type followed by a string field named
friendly_from; returns the two decoded field values. -/
def decodeMetaL (l : List Char) : Option (List Char × List Char) :=
  (dropLit metaLitA l).bind fun r1 =>
  (parseJsonStr r1).bind fun tr =>
  (dropLit metaLitB tr.2).bind fun r3 =>
  (parseJsonStr r3).bind fun fr =>
  if fr.2 = ['\x7d'] then some (tr.1, fr.1) else none

/-- String-level wrapper of `decodeMetaL`. -/
def decodeMeta (s : String) : Option (String × String) :=
  (decodeMetaL s.data).map fun p => (String.mk p.1, String.mk p.2)

/-! ## Transactional-API (SendGrid) message model

The sendgrid helper classes used by the source (Mail, Personalization,
Email, Content, CustomArg) are embedded as records; the add methods append,
mirroring the helper library. -/

/-- Email helper object: an address and an optional display name. -/
structure SGEmail where
  email : String
  name : Option String
deriving DecidableEq

/-- Personalization helper object: the list of to-addresses. -/
structure SGPersonalization where
  tos : List SGEmail
deriving DecidableEq

/-- Content helper object: a MIME type and a value. -/
structure SGContent where
  type : String
  value : String
deriving DecidableEq

/-- CustomArg helper object: a key/value pair. -/
structure SGCustomArg where
  key : String
  value : String
deriving DecidableEq

/-- Mail helper object: the message being assembled by `sg_send_email`. -/
structure SGMail where
  personalizations : List SGPersonalization
  subject : Option String
  from_email : Option SGEmail
  contents : List SGContent
  custom_args : List SGCustomArg
deriving DecidableEq

/-- Fresh Mail object (`Mail()`). -/
def SGMail.empty : SGMail := ⟨[], none, none, [], []⟩

/-- Embeds `Personalization.add_to`. -/
def SGPersonalization.add_to (p : SGPersonalization) (e : SGEmail) : SGPersonalization :=
  ⟨p.tos ++ [e]⟩

/-- Embeds `Mail.add_personalization`. -/
def SGMail.add_personalization (m : SGMail) (p : SGPersonalization) : SGMail :=
  { m with personalizations := m.personalizations ++ [p] }

/-- Embeds `Mail.set_subject`. -/
def SGMail.set_subject (m : SGMail) (s : String) : SGMail :=
  { m with subject := some s }

/-- Embeds `Mail.set_from`. -/
def SGMail.set_from (m : SGMail) (e : SGEmail) : SGMail :=
  { m with from_email := some e }

/-- Embeds `Mail.add_content`. -/
def SGMail.add_content (m : SGMail) (c : SGContent) : SGMail :=
  { m with contents := m.contents ++ [c] }

/-- Embeds `Mail.add_custom_arg`. -/
def SGMail.add_custom_arg (m : SGMail) (a : SGCustomArg) : SGMail :=
  { m with custom_args := m.custom_args ++ [a] }

/-- Configuration and collaborators read by `sg_send_email`:
`current_app.config` entries MAIL_FROM_ADDR and MAIL_FRIENDLY_FROM, and the
token produced by `current_app.token_manager.get_next_token()` for this
call. -/
structure SgEnv where
  mail_from_addr : String
  mail_friendly_from : String
  next_token : String

/-- The four literal token markers recognized by `sg_send_email`
(`_TOKEN_PARAMS` in the source). -/
def _TOKEN_PARAMS : List String :=
  ["[[ TOKEN ]]", "[[TOKEN]]", "[[ token ]]", "[[token]]"]

/-- Replaces every marker of `_TOKEN_PARAMS`, in source order, with the send
token; this is the loop `for _PARAM in _TOKEN_PARAMS: ... .replace(...)`
applied to one body. -/
def substituteTokens (send_token : String) (s : String) : String :=
  _TOKEN_PARAMS.foldl (fun acc p => pyReplace acc p send_token) s

/-- Embeds `sg_send_email(recipient, subject, html_message, text_message,
typ)`: assembles the Mail object that is posted through the SendGrid client
(`sg.client.mail.send.post(request_body=mail.get())`); the returned record is
the assembled request body. -/
def sg_send_email (env : SgEnv) (recipient subject html_message text_message typ : String) :
    SGMail :=
  let mail := SGMail.empty
  let p := SGPersonalization.add_to ⟨[]⟩ ⟨recipient, none⟩
  let mail := mail.add_personalization p
  let mail := mail.set_subject subject
  let from_addr := env.mail_from_addr
  let friendly_from := env.mail_friendly_from
  let mail := mail.set_from ⟨from_addr, some friendly_from⟩
  let mail := mail.add_custom_arg ⟨"from_addr", from_addr⟩
  let send_token := env.next_token
  let mail := mail.add_custom_arg ⟨"token", send_token⟩
  let text_message := substituteTokens send_token text_message
  let html_message := substituteTokens send_token html_message
  let mail := mail.add_content ⟨"text/plain", text_message⟩
  let mail := mail.add_content ⟨"text/html", html_message⟩
  let meta := dumpsMeta typ friendly_from
  let mail := mail.add_custom_arg ⟨"meta", meta⟩
  mail

/-! ## Relay (Flask-Mail) backend model -/

/-- Exception classes that the `try` block of `flask_send_email` can raise,
classified by the clauses that catch them. `socket_gaierror` is a DNS
failure, `socket_os_error` is any other connection-level OSError,
`smtp_auth_error` is smtplib.SMTPAuthenticationError, and `non_os_error` is
any exception that is not an OSError instance. -/
inductive PyExc where
  | socket_gaierror
  | socket_os_error
  | smtp_auth_error
  | non_os_error (name : String)
deriving DecidableEq

/-- Instance test against `(socket.gaierror, socket.error)`, the classes of
the first except clause. In Python 3, socket.error is an alias of OSError,
socket.gaierror is a subclass of OSError, and (since Python 3.4)
smtplib.SMTPException — hence SMTPAuthenticationError — is also a subclass
of OSError, so all three concrete failure classes match this clause. -/
def PyExc.isOSError : PyExc → Bool
  | .non_os_error _ => false
  | _ => true

/-- Message object built by `Message(subject, recipients=[recipient],
html=html_message, body=text_message)`. -/
structure FlaskMessage where
  subject : String
  recipients : List String
  html : String
  body : String
deriving DecidableEq

/-- Behaviour of `mail_engine.send(message)` for this call: it either
returns, or raises the given exception. -/
inductive RelaySendBehavior where
  | succeeds
  | raises (e : PyExc)
deriving DecidableEq

/-- Environment of `flask_send_email`: whether `from flask_mail import
Message` succeeds, and `current_app.extensions.get('mail', None)` — `none`
when Flask-Mail was never initialized, otherwise the engine, modelled by its
send behaviour. -/
structure RelayEnv where
  flask_mail_installed : Bool
  mail_engine : Option RelaySendBehavior
deriving DecidableEq

/-- Result of `flask_send_email`: the message was handed to the engine, or a
SendEmailError with the given text was raised, or an exception not caught by
the two except clauses propagated. -/
inductive RelayResult where
  | sent (msg : FlaskMessage)
  | send_email_error (msg : String)
  | uncaught (e : PyExc)
deriving DecidableEq

/-- Error text raised when the flask_mail import fails. -/
def flaskMailNotInstalledMsg : String :=
  "Flask-Mail has not been installed. Use \x27pip install Flask-Mail\x27 to install Flask-Mail."

/-- Error text raised when Flask-Mail was not initialized on the app. -/
def flaskMailNotInitMsg : String :=
  "Flask-Mail has not been initialized. Initialize Flask-Mail or disable USER_SEND_PASSWORD_CHANGED_EMAIL, USER_SEND_REGISTERED_EMAIL and USER_SEND_USERNAME_CHANGED_EMAIL"

/-- Error text raised by the first except clause. -/
def smtpConnectionErrorMsg : String :=
  "SMTP Connection error: Check your MAIL_SERVER and MAIL_PORT settings."

/-- Error text raised by the second except clause. -/
def smtpAuthErrorMsg : String :=
  "SMTP Authentication error: Check your MAIL_USERNAME and MAIL_PASSWORD settings."

/-- Embeds `flask_send_email(recipient, subject, html_message, text_message,
typ)`: import check, initialization check, message construction, send, and
the two except clauses in source order (first `(socket.gaierror,
socket.error)`, then `smtplib.SMTPAuthenticationError`). -/
def flask_send_email (env : RelayEnv)
    (recipient subject html_message text_message typ : String) : RelayResult :=
  if !env.flask_mail_installed then
    .send_email_error flaskMailNotInstalledMsg
  else
    match env.mail_engine with
    | none => .send_email_error flaskMailNotInitMsg
    | some behavior =>
      let message : FlaskMessage := ⟨subject, [recipient], html_message, text_message⟩
      match behavior with
      | .succeeds => .sent message
      | .raises e =>
        if e.isOSError then .send_email_error smtpConnectionErrorMsg
        else if e = .smtp_auth_error then .send_email_error smtpAuthErrorMsg
        else .uncaught e

/-! ## Backend dispatcher -/

/-- Which backend `send_email` delegated to, with the forwarded arguments. -/
inductive Dispatched where
  | sendgrid_backend (recipient subject html_message text_message typ : String)
  | relay_backend (recipient subject html_message text_message typ : String)
deriving DecidableEq

/-- Embeds `send_email(*args)`: reads `current_app.config["mail"]` (passed
here as `cfg_mail`) and forwards the five arguments to `sg_send_email` when
it equals the literal sendgrid string, to `flask_send_email` otherwise. -/
def send_email (cfg_mail : String)
    (recipient subject html_message text_message typ : String) : Dispatched :=
  if cfg_mail = "sendgrid" then
    .sendgrid_backend recipient subject html_message text_message typ
  else
    .relay_backend recipient subject html_message text_message typ

/-! ## Template rendering and the orchestrators -/

/-- Context value passed to the template engine: the orchestrators pass the
user object and strings (app name and action links). -/
inductive CtxVal where
  | user (u : User)
  | str (s : String)
deriving DecidableEq

/-- Data-store adapter of the user manager: whether a UserEmailClass is
configured, and `find_first_object(UserEmailClass, user_id=..,
is_primary=True)` as a function of the user id. -/
structure DbAdapter where
  UserEmailClass : Bool
  find_first_object : Nat → Option UserEmail

/-- Settings of `current_app.user_manager` read by this module. -/
structure UserManager where
  enable_email : Bool
  enable_confirm_email : Bool
  enable_forgot_password : Bool
  send_registered_email : Bool
  send_password_changed_email : Bool
  send_username_changed_email : Bool
  confirm_email_email_template : String
  forgot_password_email_template : String
  password_changed_email_template : String
  registered_email_template : String
  username_changed_email_template : String
  invite_email_template : String
  app_name : String
  db_adapter : DbAdapter

/-- Application environment: the user manager and the template engine
(`render_template`, a function of the template file name and the keyword
context). -/
structure AppEnv where
  user_manager : UserManager
  render_template : String → List (String × CtxVal) → String

/-- Embeds `_render_email(filename, **kwargs)`: renders the subject from
`filename_subject.txt`, replaces every newline and carriage return in it
with a space, renders the HTML and text bodies, and returns the triple. -/
def _render_email (env : AppEnv) (filename : String)
    (kwargs : List (String × CtxVal)) : String × String × String :=
  let subject := env.render_template (filename ++ "_subject.txt") kwargs
  let subject := pyCharReplace subject '\n' ' '
  let subject := pyCharReplace subject '\r' ' '
  let html_message := env.render_template (filename ++ "_message.html") kwargs
  let text_message := env.render_template (filename ++ "_message.txt") kwargs
  (subject, html_message, text_message)

/-- Collaborator call made by an orchestrator: one `_render_email`
invocation (recorded by template name), or the final
`user_manager.send_email_function(...)` call with its five arguments. -/
inductive OrchStep where
  | rendered (template : String)
  | sent (recipient subject html_message text_message typ : String)
deriving DecidableEq

/-- Outcome of an orchestrator call: it returned (with the trace of
collaborator calls it made — empty for the early returns), or a Python
`assert` failed after the given trace, identified by its asserted
expression. -/
inductive OrchOutcome where
  | done (steps : List OrchStep)
  | assert_failed (steps : List OrchStep) (cond : String)
deriving DecidableEq

/-- Recipient of the first send call in a trace, when one occurred. -/
def firstSent : List OrchStep → Option String
  | [] => none
  | .sent r _ _ _ _ :: _ => some r
  | .rendered _ :: rest => firstSent rest

/-- Recipient of the first send call of an outcome, when one occurred. -/
def sentTo : OrchOutcome → Option String
  | .done steps => firstSent steps
  | .assert_failed _ _ => none

/-- Possible results of `get_primary_user_email(user)`: a UserEmail object,
Python None (lookup found nothing), or the user object itself. -/
inductive PrimaryEmailResult where
  | user_email (ue : UserEmail)
  | none_obj
  | user_obj (u : User)
deriving DecidableEq

/-- Embeds `get_primary_user_email(user)`: when a UserEmailClass is
configured, look up the primary UserEmail of the user (possibly None);
otherwise return the user object itself. -/
def get_primary_user_email (env : AppEnv) (user : User) : PrimaryEmailResult :=
  let db_adapter := env.user_manager.db_adapter
  if db_adapter.UserEmailClass then
    match db_adapter.find_first_object user.id with
    | some ue => .user_email ue
    | none => .none_obj
  else
    .user_obj user

/-- Embeds `send_confirm_email_email(user, user_email,
confirm_email_link)`. -/
def send_confirm_email_email (env : AppEnv) (user : User)
    (user_email : Option UserEmail) (confirm_email_link : String) : OrchOutcome :=
  let um := env.user_manager
  if !um.enable_email then .done []
  else if !um.send_registered_email && !um.enable_confirm_email then .done []
  else
    let email :=
      match user_email with
      | some ue => ue.email
      | none => user.email
    if email = "" then .assert_failed [] "email"
    else
      let r := _render_email env um.confirm_email_email_template
        [("user", CtxVal.user user), ("app_name", CtxVal.str um.app_name),
         ("confirm_email_link", CtxVal.str confirm_email_link)]
      .done [.rendered um.confirm_email_email_template,
             .sent email r.1 r.2.1 r.2.2 "confirm email"]

/-- Embeds `send_forgot_password_email(user, user_email,
reset_password_link)`. -/
def send_forgot_password_email (env : AppEnv) (user : User)
    (user_email : Option UserEmail) (reset_password_link : String) : OrchOutcome :=
  let um := env.user_manager
  if !um.enable_email then .done []
  else if !um.enable_forgot_password then
    .assert_failed [] "user_manager.enable_forgot_password"
  else
    let email :=
      match user_email with
      | some ue => ue.email
      | none => user.email
    if email = "" then .assert_failed [] "email"
    else
      let r := _render_email env um.forgot_password_email_template
        [("user", CtxVal.user user), ("app_name", CtxVal.str um.app_name),
         ("reset_password_link", CtxVal.str reset_password_link)]
      .done [.rendered um.forgot_password_email_template,
             .sent email r.1 r.2.1 r.2.2 "forgot password"]

/-- Embeds `send_password_changed_email(user)`. -/
def send_password_changed_email (env : AppEnv) (user : User) : OrchOutcome :=
  let um := env.user_manager
  if !um.enable_email then .done []
  else if !um.send_password_changed_email then .done []
  else
    match get_primary_user_email env user with
    | .none_obj => .assert_failed [] "user_email"
    | .user_email ue =>
      if ue.email = "" then .assert_failed [] "email"
      else
        let r := _render_email env um.password_changed_email_template
          [("user", CtxVal.user user), ("app_name", CtxVal.str um.app_name)]
        .done [.rendered um.password_changed_email_template,
               .sent ue.email r.1 r.2.1 r.2.2 "password changed"]
    | .user_obj u =>
      if u.email = "" then .assert_failed [] "email"
      else
        let r := _render_email env um.password_changed_email_template
          [("user", CtxVal.user user), ("app_name", CtxVal.str um.app_name)]
        .done [.rendered um.password_changed_email_template,
               .sent u.email r.1 r.2.1 r.2.2 "password changed"]

/-- Embeds `send_registered_email(user, user_email, confirm_email_link)`. -/
def send_registered_email (env : AppEnv) (user : User)
    (user_email : Option UserEmail) (confirm_email_link : String) : OrchOutcome :=
  let um := env.user_manager
  if !um.enable_email then .done []
  else if !um.send_registered_email then .done []
  else
    let email :=
      match user_email with
      | some ue => ue.email
      | none => user.email
    if email = "" then .assert_failed [] "email"
    else
      let r := _render_email env um.registered_email_template
        [("user", CtxVal.user user), ("app_name", CtxVal.str um.app_name),
         ("confirm_email_link", CtxVal.str confirm_email_link)]
      .done [.rendered um.registered_email_template,
             .sent email r.1 r.2.1 r.2.2 "registered"]

/-- Embeds `send_username_changed_email(user)`. -/
def send_username_changed_email (env : AppEnv) (user : User) : OrchOutcome :=
  let um := env.user_manager
  if !um.enable_email then .done []
  else if !um.send_username_changed_email then .done []
  else
    match get_primary_user_email env user with
    | .none_obj => .assert_failed [] "user_email"
    | .user_email ue =>
      if ue.email = "" then .assert_failed [] "email"
      else
        let r := _render_email env um.username_changed_email_template
          [("user", CtxVal.user user), ("app_name", CtxVal.str um.app_name)]
        .done [.rendered um.username_changed_email_template,
               .sent ue.email r.1 r.2.1 r.2.2 "username changed"]
    | .user_obj u =>
      if u.email = "" then .assert_failed [] "email"
      else
        let r := _render_email env um.username_changed_email_template
          [("user", CtxVal.user user), ("app_name", CtxVal.str um.app_name)]
        .done [.rendered um.username_changed_email_template,
               .sent u.email r.1 r.2.1 r.2.2 "username changed"]

/-- Embeds `send_invite_email(user, accept_invite_link)`. Note: this
orchestrator has no per-event flag and no assert on the address. -/
def send_invite_email (env : AppEnv) (user : User)
    (accept_invite_link : String) : OrchOutcome :=
  let um := env.user_manager
  if !um.enable_email then .done []
  else
    let r := _render_email env um.invite_email_template
      [("user", CtxVal.user user), ("app_name", CtxVal.str um.app_name),
       ("accept_invite_link", CtxVal.str accept_invite_link)]
    .done [.rendered um.invite_email_template,
           .sent user.email r.1 r.2.1 r.2.2 "invite"]

/-! ## Concrete collaborator instances used by closed witness and
counterexample theorems -/

/-- Template engine that returns the template file name as the rendered
text. -/
def rtName : String → List (String × CtxVal) → String := fun name _ => name

/-- Data store with no UserEmailClass configured. -/
def dbPlain : DbAdapter := ⟨false, fun _ => none⟩

/-- User manager with every feature flag enabled and the default template
names. -/
def umAll : UserManager :=
  ⟨true, true, true, true, true, true,
   "confirm_email", "forgot_password", "password_changed", "registered",
   "username_changed", "invite", "MyApp", dbPlain⟩

/-- Application environment with every flag enabled. -/
def envAll : AppEnv := ⟨umAll, rtName⟩

/-- Application environment with the global email flag disabled. -/
def envOff : AppEnv := ⟨{ umAll with enable_email := false }, rtName⟩

/-- Application environment with only the confirm-email flag disabled
(send_registered_email stays on). -/
def envConfirmOff : AppEnv := ⟨{ umAll with enable_confirm_email := false }, rtName⟩

/-- Concrete user with a non-empty address. -/
def userW : User := ⟨1, "user@example.com"⟩

/-- Concrete user with an empty address. -/
def userNoEmail : User := ⟨7, ""⟩

/-- Concrete UserEmail whose address differs from the address of userW. -/
def ueOther : UserEmail := ⟨1, "other@example.com", true⟩

/-- Concrete UserEmail with an empty address. -/
def ueEmpty : UserEmail := ⟨1, "", true⟩

/-- Environment update that sets the five per-event flags, leaving the
global flag, the templates and the collaborators unchanged. -/
def setEventFlags (env : AppEnv) (ce fp sr pc uc : Bool) : AppEnv :=
  { env with user_manager := { env.user_manager with
      enable_confirm_email := ce, enable_forgot_password := fp,
      send_registered_email := sr, send_password_changed_email := pc,
      send_username_changed_email := uc } }

/-- SendGrid environment used by the token-substitution witness. -/
def sgEnvW : SgEnv := ⟨"from@example.com", "Friendly Sender", "TOK123"⟩

/-- Relay environment whose engine send succeeds. -/
def relayEnvW : RelayEnv := ⟨true, some .succeeds⟩

/-- Relay environment where Flask-Mail is importable but was never
initialized on the application. -/
def noEngineEnv : RelayEnv := ⟨true, none⟩

/-- Relay environment whose engine send raises
smtplib.SMTPAuthenticationError. -/
def authFailEnv : RelayEnv := ⟨true, some (.raises .smtp_auth_error)⟩

/-! ## Helper lemmas -/

/-- Stripping a literal from a list that starts with it leaves the rest. -/
theorem dropLit_append (a r : List Char) : dropLit a (a ++ r) = some r := by
  induction a with
  | nil => rfl
  | cons c cs ih => simp [dropLit, ih]

/-- Computation rule of `jsonEscape` on the empty string. -/
theorem jsonEscape_nil : jsonEscape [] = [] := rfl

/-- Computation rule of `jsonEscape` on a cons. -/
theorem jsonEscape_cons (c : Char) (cs : List Char) :
    jsonEscape (c :: cs) = jsonEscChar c ++ jsonEscape cs := by
  simp [jsonEscape]

/-- Parsing an escaped string followed by a closing quote recovers the
original characters and the rest of the input. -/
theorem parseJsonStr_escape (s rest : List Char) :
    parseJsonStr (jsonEscape s ++ '"' :: rest) = some (s, rest) := by
  induction s with
  | nil =>
    rw [jsonEscape_nil, List.nil_append, parseJsonStr.eq_def]
    simp
  | cons c cs ih =>
    rw [jsonEscape_cons]
    by_cases h1 : c = '"'
    · subst h1
      rw [show jsonEscChar '"' = ['\\', '"'] from rfl, parseJsonStr.eq_def]
      simp [unescChar, ih]
    · by_cases h2 : c = '\\'
      · subst h2
        rw [show jsonEscChar '\\' = ['\\', '\\'] from rfl, parseJsonStr.eq_def]
        simp [unescChar, ih]
      · by_cases h3 : c = '\n'
        · subst h3
          rw [show jsonEscChar '\n' = ['\\', 'n'] from rfl, parseJsonStr.eq_def]
          simp [unescChar, ih]
        · by_cases h4 : c = '\r'
          · subst h4
            rw [show jsonEscChar '\r' = ['\\', 'r'] from rfl, parseJsonStr.eq_def]
            simp [unescChar, ih]
          · by_cases h5 : c = '\t'
            · subst h5
              rw [show jsonEscChar '\t' = ['\\', 't'] from rfl, parseJsonStr.eq_def]
              simp [unescChar, ih]
            · rw [show jsonEscChar c = [c] from by simp [jsonEscChar, h1, h2, h3, h4, h5]]
              rw [List.cons_append, List.nil_append, parseJsonStr.eq_def]
              simp [h1, h2, ih]

/-- Round trip of the meta JSON encoding at the level of character lists. -/
theorem decodeMetaL_dumpsMetaL (t f : List Char) :
    decodeMetaL (dumpsMetaL t f) = some (t, f) := by
  simp [decodeMetaL, dumpsMetaL, dropLit_append, parseJsonStr_escape]

/-- Round trip of the meta JSON encoding. -/
theorem decodeMeta_dumpsMeta (t f : String) :
    decodeMeta (dumpsMeta t f) = some (t, f) := by
  have h : (String.mk (dumpsMetaL t.data f.data)).data = dumpsMetaL t.data f.data := rfl
  simp only [decodeMeta, dumpsMeta, h, decodeMetaL_dumpsMetaL, Option.map_some']

/-- When the pattern occurs nowhere in the list, fuelled replacement leaves
the list unchanged (for any amount of fuel). -/
theorem replaceFromAux_no_occ (pat rep : List Char) :
    ∀ (fuel : Nat) (s : List Char), occursIn pat s = false →
      replaceFromAux pat rep fuel s = s := by
  intro fuel
  induction fuel with
  | zero => intro s _; rfl
  | succ n ih =>
    intro s h
    cases s with
    | nil => rfl
    | cons c cs =>
      cases hdl : dropLit pat (c :: cs) with
      | some rest =>
        exfalso
        simp [occursIn, hdl] at h
      | none =>
        have ht : occursIn pat cs = false := by
          simp [occursIn, hdl] at h
          exact h
        simp [replaceFromAux, hdl, ih cs ht]

/-- When the pattern occurs nowhere in the string, `pyReplace` is the
identity. -/
theorem pyReplace_no_occ (s pat rep : String)
    (h : occursIn pat.data s.data = false) : pyReplace s pat rep = s := by
  rw [pyReplace.eq_def]
  split
  · rfl
  next p ps hp =>
    rw [hp] at h
    rw [hp, replaceFromAux_no_occ (p :: ps) rep.data s.data.length s.data h]

/-- Composing the two single-character replacements done on a rendered
subject equals one map that sends both newline characters to a space. -/
theorem sanitize_as_map (x : String) :
    pyCharReplace (pyCharReplace x '\n' ' ') '\r' ' ' =
      String.mk (x.data.map fun c => if c = '\n' ∨ c = '\r' then ' ' else c) := by
  show String.mk ((x.data.map fun c => if c = '\n' then ' ' else c).map
    fun c => if c = '\r' then ' ' else c) = _
  rw [List.map_map]
  apply congrArg String.mk
  apply List.map_congr_left
  intro c _
  by_cases h1 : c = '\n'
  · subst h1; simp
  · by_cases h2 : c = '\r'
    · subst h2; simp
    · simp [Function.comp, h1, h2]

/-! ## Claim theorems -/

/-- C7: for every template output, the final subject is the rendered subject
with each newline and each carriage-return character replaced by exactly one
space — hence it contains neither character — and the HTML and text bodies
are the raw template outputs, unmodified. -/
theorem render_email_subject_sanitized (env : AppEnv) (filename : String)
    (kwargs : List (String × CtxVal)) :
    (_render_email env filename kwargs).1 =
      String.mk ((env.render_template (filename ++ "_subject.txt") kwargs).data.map
        fun c => if c = '\n' ∨ c = '\r' then ' ' else c) ∧
    '\n' ∉ ((_render_email env filename kwargs).1).data ∧
    '\r' ∉ ((_render_email env filename kwargs).1).data ∧
    (_render_email env filename kwargs).2.1 =
      env.render_template (filename ++ "_message.html") kwargs ∧
    (_render_email env filename kwargs).2.2 =
      env.render_template (filename ++ "_message.txt") kwargs := by
  have hsub : (_render_email env filename kwargs).1 =
      String.mk ((env.render_template (filename ++ "_subject.txt") kwargs).data.map
        fun c => if c = '\n' ∨ c = '\r' then ' ' else c) :=
    sanitize_as_map (env.render_template (filename ++ "_subject.txt") kwargs)
  have hnotin : ∀ c₀ : Char, (if c₀ = '\n' ∨ c₀ = '\r' then ' ' else c₀) ≠ '\n' ∧
      (if c₀ = '\n' ∨ c₀ = '\r' then ' ' else c₀) ≠ '\r' := by
    intro c₀
    by_cases h : c₀ = '\n' ∨ c₀ = '\r'
    · simp [h]
    · push_neg at h
      simp [h.1, h.2]
  refine ⟨hsub, ?_, ?_, rfl, rfl⟩
  · rw [hsub]
    intro hmem
    have hmem2 : '\n' ∈ (env.render_template (filename ++ "_subject.txt") kwargs).data.map
        (fun c => if c = '\n' ∨ c = '\r' then ' ' else c) := hmem
    rw [List.mem_map] at hmem2
    obtain ⟨a, -, ha⟩ := hmem2
    exact (hnotin a).1 ha
  · rw [hsub]
    intro hmem
    have hmem2 : '\r' ∈ (env.render_template (filename ++ "_subject.txt") kwargs).data.map
        (fun c => if c = '\n' ∨ c = '\r' then ' ' else c) := hmem
    rw [List.mem_map] at hmem2
    obtain ⟨a, -, ha⟩ := hmem2
    exact (hnotin a).2 ha

/-- C8: the dispatcher compares the configuration value under the mail key
with the literal sendgrid string; on equality it invokes the
transactional-API backend with the same five arguments, on anything else the
relay backend with the same five arguments, and no other outcome is
possible. -/
theorem send_email_dispatch_spec
    (cfg_mail recipient subject html_message text_message typ : String) :
    (cfg_mail = "sendgrid" →
      send_email cfg_mail recipient subject html_message text_message typ =
        .sendgrid_backend recipient subject html_message text_message typ) ∧
    (cfg_mail ≠ "sendgrid" →
      send_email cfg_mail recipient subject html_message text_message typ =
        .relay_backend recipient subject html_message text_message typ) ∧
    (send_email cfg_mail recipient subject html_message text_message typ =
        .sendgrid_backend recipient subject html_message text_message typ ∨
      send_email cfg_mail recipient subject html_message text_message typ =
        .relay_backend recipient subject html_message text_message typ) := by
  refine ⟨fun h => by simp [send_email, h], fun h => by simp [send_email, h], ?_⟩
  by_cases h : cfg_mail = "sendgrid"
  · exact Or.inl (by simp [send_email, h])
  · exact Or.inr (by simp [send_email, h])

/-- Witness for C8 at the literal sendgrid value and at a value outside the
known set. -/
theorem send_email_dispatch_spec_witness :
    send_email "sendgrid" "r@example.com" "S" "H" "T" "invite" =
      .sendgrid_backend "r@example.com" "S" "H" "T" "invite" ∧
    send_email "smtp" "r@example.com" "S" "H" "T" "invite" =
      .relay_backend "r@example.com" "S" "H" "T" "invite" :=
  ⟨(send_email_dispatch_spec "sendgrid" "r@example.com" "S" "H" "T" "invite").1 rfl,
   (send_email_dispatch_spec "smtp" "r@example.com" "S" "H" "T" "invite").2.1 (by decide)⟩

/-- C2 (code bug): when the relay engine raises
smtplib.SMTPAuthenticationError, `flask_send_email` raises the
connection-error variant naming MAIL_SERVER and MAIL_PORT, not the
authentication variant naming MAIL_USERNAME and MAIL_PASSWORD. The first
except clause catches `(socket.gaierror, socket.error)`; under Python 3
socket.error is an alias of OSError and SMTPAuthenticationError is a
subclass of OSError (smtplib.SMTPException derives from OSError since
Python 3.4), so authentication failures are caught by the first clause and
the dedicated authentication clause below it is unreachable. -/
theorem auth_failure_mapped_to_connection_variant :
    flask_send_email authFailEnv "r@example.com" "S" "H" "T" "confirm email" =
      .send_email_error smtpConnectionErrorMsg ∧
    flask_send_email authFailEnv "r@example.com" "S" "H" "T" "confirm email" ≠
      .send_email_error smtpAuthErrorMsg := by
  refine ⟨rfl, ?_⟩
  intro h
  have := RelayResult.send_email_error.inj h
  revert this
  decide

/-- C9: when Flask-Mail is importable but absent from the application
extension registry, `flask_send_email` raises the not-initialized
SendEmailError — whose text names the three feature flags
USER_SEND_PASSWORD_CHANGED_EMAIL, USER_SEND_REGISTERED_EMAIL and
USER_SEND_USERNAME_CHANGED_EMAIL — and the result is not a sent message:
no message object is constructed and nothing reaches an engine. -/
theorem relay_not_initialized_error (env : RelayEnv)
    (recipient subject html_message text_message typ : String)
    (hin : env.flask_mail_installed = true) (heng : env.mail_engine = none) :
    flask_send_email env recipient subject html_message text_message typ =
      .send_email_error flaskMailNotInitMsg ∧
    occursIn "USER_SEND_PASSWORD_CHANGED_EMAIL".data flaskMailNotInitMsg.data = true ∧
    occursIn "USER_SEND_REGISTERED_EMAIL".data flaskMailNotInitMsg.data = true ∧
    occursIn "USER_SEND_USERNAME_CHANGED_EMAIL".data flaskMailNotInitMsg.data = true := by
  refine ⟨?_, by decide, by decide, by decide⟩
  simp [flask_send_email, hin, heng]

/-- Witness for C9 at a concrete uninitialized environment. -/
theorem relay_not_initialized_error_witness :
    flask_send_email noEngineEnv "r@example.com" "S" "H" "T" "invite" =
      .send_email_error flaskMailNotInitMsg ∧
    occursIn "USER_SEND_PASSWORD_CHANGED_EMAIL".data flaskMailNotInitMsg.data = true ∧
    occursIn "USER_SEND_REGISTERED_EMAIL".data flaskMailNotInitMsg.data = true ∧
    occursIn "USER_SEND_USERNAME_CHANGED_EMAIL".data flaskMailNotInitMsg.data = true :=
  relay_not_initialized_error noEngineEnv "r@example.com" "S" "H" "T" "invite" rfl rfl

/-- C5: every message assembled by the transactional-API backend has exactly
one personalization block with exactly one recipient, exactly two content
blocks ordered text/plain then text/html, and a meta custom argument whose
JSON-decoded value has a type field equal to the category string passed in
and a friendly_from field equal to the configured display name. -/
theorem sg_mail_shape (env : SgEnv)
    (recipient subject html_message text_message typ : String) :
    (sg_send_email env recipient subject html_message text_message typ).personalizations =
      [⟨[⟨recipient, none⟩]⟩] ∧
    (sg_send_email env recipient subject html_message text_message typ).contents.map
      SGContent.type = ["text/plain", "text/html"] ∧
    ((sg_send_email env recipient subject html_message text_message typ).custom_args.filter
      fun a => a.key = "meta").map SGCustomArg.value =
      [dumpsMeta typ env.mail_friendly_from] ∧
    decodeMeta (dumpsMeta typ env.mail_friendly_from) =
      some (typ, env.mail_friendly_from) := by
  refine ⟨?_, ?_, ?_, decodeMeta_dumpsMeta typ env.mail_friendly_from⟩
  · simp [sg_send_email, SGMail.empty, SGMail.add_personalization, SGMail.set_subject,
      SGMail.set_from, SGMail.add_custom_arg, SGMail.add_content, SGPersonalization.add_to]
  · simp [sg_send_email, SGMail.empty, SGMail.add_personalization, SGMail.set_subject,
      SGMail.set_from, SGMail.add_custom_arg, SGMail.add_content, SGPersonalization.add_to]
  · simp [sg_send_email, SGMail.empty, SGMail.add_personalization, SGMail.set_subject,
      SGMail.set_from, SGMail.add_custom_arg, SGMail.add_content, SGPersonalization.add_to,
      List.filter]

/-- C6: the transactional-API backend replaces the four literal markers in
both bodies with the single token generated for the send — the same token
attached as the token custom argument; a body containing none of the markers
passes through unchanged; and the relay backend performs no substitution,
submitting the given HTML and text bodies verbatim. -/
theorem token_substitution_spec :
    (∀ (env : SgEnv) (recipient subject html_message text_message typ : String),
      (sg_send_email env recipient subject html_message text_message typ).contents =
        [⟨"text/plain", substituteTokens env.next_token text_message⟩,
         ⟨"text/html", substituteTokens env.next_token html_message⟩] ∧
      ((sg_send_email env recipient subject html_message text_message typ).custom_args.filter
        fun a => a.key = "token").map SGCustomArg.value = [env.next_token]) ∧
    (∀ send_token body : String,
      (∀ p ∈ _TOKEN_PARAMS, occursIn p.data body.data = false) →
        substituteTokens send_token body = body) ∧
    (∀ (env : RelayEnv) (recipient subject html_message text_message typ : String),
      env.flask_mail_installed = true → env.mail_engine = some .succeeds →
        flask_send_email env recipient subject html_message text_message typ =
          .sent ⟨subject, [recipient], html_message, text_message⟩) := by
  refine ⟨?_, ?_, ?_⟩
  · intro env recipient subject html_message text_message typ
    constructor
    · simp [sg_send_email, SGMail.empty, SGMail.add_personalization, SGMail.set_subject,
        SGMail.set_from, SGMail.add_custom_arg, SGMail.add_content, SGPersonalization.add_to]
    · simp [sg_send_email, SGMail.empty, SGMail.add_personalization, SGMail.set_subject,
        SGMail.set_from, SGMail.add_custom_arg, SGMail.add_content, SGPersonalization.add_to,
        List.filter]
  · intro send_token body h
    have h1 := h "[[ TOKEN ]]" (by simp [_TOKEN_PARAMS])
    have h2 := h "[[TOKEN]]" (by simp [_TOKEN_PARAMS])
    have h3 := h "[[ token ]]" (by simp [_TOKEN_PARAMS])
    have h4 := h "[[token]]" (by simp [_TOKEN_PARAMS])
    simp only [substituteTokens, _TOKEN_PARAMS, List.foldl_cons, List.foldl_nil]
    rw [pyReplace_no_occ _ _ _ h1, pyReplace_no_occ _ _ _ h2,
      pyReplace_no_occ _ _ _ h3, pyReplace_no_occ _ _ _ h4]
  · intro env recipient subject html_message text_message typ hin heng
    simp [flask_send_email, hin, heng]

/-- Witness for C6: a pair of bodies containing all four marker spellings
has every marker replaced with the generated token; a marker-free body is
unchanged; the relay backend submits bodies verbatim. -/
theorem token_substitution_spec_witness :
    (sg_send_email sgEnvW "r@example.com" "S" "A[[ TOKEN ]]B[[TOKEN]]C"
        "D[[ token ]]E[[token]]F" "invite").contents =
      [⟨"text/plain", "DTOK123ETOK123F"⟩, ⟨"text/html", "ATOK123BTOK123C"⟩] ∧
    substituteTokens "TOK123" "plain body" = "plain body" ∧
    flask_send_email relayEnvW "r@example.com" "S" "html body" "text body" "invite" =
      .sent ⟨"S", ["r@example.com"], "html body", "text body"⟩ := by
  refine ⟨?_, ?_, ?_⟩
  · rw [(token_substitution_spec.1 sgEnvW "r@example.com" "S" "A[[ TOKEN ]]B[[TOKEN]]C"
      "D[[ token ]]E[[token]]F" "invite").1]
    decide
  · exact token_substitution_spec.2.1 "TOK123" "plain body" (by decide)
  · exact token_substitution_spec.2.2 relayEnvW "r@example.com" "S" "html body"
      "text body" "invite" rfl rfl

/-- C4: when the global email-enabled flag is false, every one of the six
event functions returns immediately with an empty trace — no template render
and no send call — regardless of the other flags, the user, or any other
argument. -/
theorem global_flag_off_no_render_no_send (env : AppEnv) (user : User)
    (user_email : Option UserEmail) (link : String)
    (h : env.user_manager.enable_email = false) :
    send_confirm_email_email env user user_email link = .done [] ∧
    send_forgot_password_email env user user_email link = .done [] ∧
    send_password_changed_email env user = .done [] ∧
    send_registered_email env user user_email link = .done [] ∧
    send_username_changed_email env user = .done [] ∧
    send_invite_email env user link = .done [] := by
  refine ⟨?_, ?_, ?_, ?_, ?_, ?_⟩
  · simp [send_confirm_email_email, h]
  · simp [send_forgot_password_email, h]
  · simp [send_password_changed_email, h]
  · simp [send_registered_email, h]
  · simp [send_username_changed_email, h]
  · simp [send_invite_email, h]

/-- Witness for C4 at a concrete environment whose global flag is off but
whose per-event flags are all on. -/
theorem global_flag_off_no_render_no_send_witness :
    send_confirm_email_email envOff userW none "L" = .done [] ∧
    send_forgot_password_email envOff userW none "L" = .done [] ∧
    send_password_changed_email envOff userW = .done [] ∧
    send_registered_email envOff userW none "L" = .done [] ∧
    send_username_changed_email envOff userW = .done [] ∧
    send_invite_email envOff userW "L" = .done [] :=
  global_flag_off_no_render_no_send envOff userW none "L" rfl

/-- Environment with the global flag on and every per-event flag off, used
by the C1 witness. -/
def envEventsOff : AppEnv :=
  ⟨⟨true, false, false, false, false, false,
    "confirm_email", "forgot_password", "password_changed", "registered",
    "username_changed", "invite", "MyApp", dbPlain⟩, rtName⟩

/-- C1 (amended): with the global flag on, the registered, password-changed
and username-changed functions return without render or send when their own
flag is false; forgot-password raises an assertion error (still no render or
send) when its flag is false; confirm-email returns without render or send
exactly when both send_registered_email and enable_confirm_email are false;
and each function is unaffected by the flags it does not read — every event
flag other than its own, except that confirm-email also reads
send_registered_email. -/
theorem per_event_flag_spec (env : AppEnv) (user : User)
    (user_email : Option UserEmail) (link : String) (b1 b2 b3 b4 b5 : Bool)
    (h : env.user_manager.enable_email = true) :
    (env.user_manager.send_password_changed_email = false →
      send_password_changed_email env user = .done []) ∧
    (env.user_manager.send_registered_email = false →
      send_registered_email env user user_email link = .done []) ∧
    (env.user_manager.send_username_changed_email = false →
      send_username_changed_email env user = .done []) ∧
    (env.user_manager.enable_forgot_password = false →
      send_forgot_password_email env user user_email link =
        .assert_failed [] "user_manager.enable_forgot_password") ∧
    (env.user_manager.send_registered_email = false ∧
        env.user_manager.enable_confirm_email = false →
      send_confirm_email_email env user user_email link = .done []) ∧
    send_password_changed_email
        (setEventFlags env b1 b2 b3 env.user_manager.send_password_changed_email b4) user =
      send_password_changed_email env user ∧
    send_registered_email
        (setEventFlags env b1 b2 env.user_manager.send_registered_email b3 b4)
        user user_email link =
      send_registered_email env user user_email link ∧
    send_username_changed_email
        (setEventFlags env b1 b2 b3 b4 env.user_manager.send_username_changed_email) user =
      send_username_changed_email env user ∧
    send_forgot_password_email
        (setEventFlags env b1 env.user_manager.enable_forgot_password b2 b3 b4)
        user user_email link =
      send_forgot_password_email env user user_email link ∧
    send_confirm_email_email
        (setEventFlags env env.user_manager.enable_confirm_email b1
          env.user_manager.send_registered_email b2 b3) user user_email link =
      send_confirm_email_email env user user_email link ∧
    send_invite_email (setEventFlags env b1 b2 b3 b4 b5) user link =
      send_invite_email env user link := by
  refine ⟨?_, ?_, ?_, ?_, ?_, rfl, rfl, rfl, rfl, rfl, rfl⟩
  · intro hf; simp [send_password_changed_email, h, hf]
  · intro hf; simp [send_registered_email, h, hf]
  · intro hf; simp [send_username_changed_email, h, hf]
  · intro hf; simp [send_forgot_password_email, h, hf]
  · intro hsc; simp [send_confirm_email_email, h, hsc.1, hsc.2]

/-- Witness for C1 at a concrete environment with the global flag on and
every per-event flag off. -/
theorem per_event_flag_spec_witness :
    send_password_changed_email envEventsOff userW = .done [] ∧
    send_registered_email envEventsOff userW none "L" = .done [] ∧
    send_username_changed_email envEventsOff userW = .done [] ∧
    send_forgot_password_email envEventsOff userW none "L" =
      .assert_failed [] "user_manager.enable_forgot_password" ∧
    send_confirm_email_email envEventsOff userW none "L" = .done [] ∧
    send_invite_email (setEventFlags envEventsOff true true true true true) userW "L" =
      send_invite_email envEventsOff userW "L" := by
  obtain ⟨c1, c2, c3, c4, c5, -, -, -, -, -, f6⟩ :=
    per_event_flag_spec envEventsOff userW none "L" true true true true true rfl
  exact ⟨c1 rfl, c2 rfl, c3 rfl, c4 rfl, c5 ⟨rfl, rfl⟩, f6⟩

/-- Counterexample to C1 as stated: with the global flag on, disabling only
enable_confirm_email does not make the confirm-email function return without
rendering or sending — because send_registered_email is still on, the
function renders and sends. -/
theorem per_event_flag_counterexample :
    envConfirmOff.user_manager.enable_email = true ∧
    envConfirmOff.user_manager.enable_confirm_email = false ∧
    send_confirm_email_email envConfirmOff userW none "http://confirm" =
      .done [.rendered "confirm_email",
             .sent "user@example.com" "confirm_email_subject.txt"
               "confirm_email_message.html" "confirm_email_message.txt" "confirm email"] :=
  ⟨rfl, rfl, by decide⟩

/-- C3 (amended): with the guards passing, a supplied UserEmail argument is
preferred as the recipient even when its address differs from the address of
the User (confirm-email, forgot-password, registered — the orchestrators
that take one); with none supplied the User address is used; in those three
and in the two primary-lookup orchestrators (password-changed,
username-changed) an empty resolved address fails an assertion with an empty
trace, before any render or send; send_invite_email performs no emptiness
check and always renders and sends to the User address. -/
theorem recipient_resolution_spec (env : AppEnv) (user : User) (x : UserEmail)
    (link : String) (hee : env.user_manager.enable_email = true) :
    ((env.user_manager.send_registered_email = true ∨
        env.user_manager.enable_confirm_email = true) → x.email ≠ "" →
      sentTo (send_confirm_email_email env user (some x) link) = some x.email) ∧
    (env.user_manager.enable_forgot_password = true → x.email ≠ "" →
      sentTo (send_forgot_password_email env user (some x) link) = some x.email) ∧
    (env.user_manager.send_registered_email = true → x.email ≠ "" →
      sentTo (send_registered_email env user (some x) link) = some x.email) ∧
    ((env.user_manager.send_registered_email = true ∨
        env.user_manager.enable_confirm_email = true) → user.email ≠ "" →
      sentTo (send_confirm_email_email env user none link) = some user.email) ∧
    (env.user_manager.enable_forgot_password = true → user.email ≠ "" →
      sentTo (send_forgot_password_email env user none link) = some user.email) ∧
    (env.user_manager.send_registered_email = true → user.email ≠ "" →
      sentTo (send_registered_email env user none link) = some user.email) ∧
    ((env.user_manager.send_registered_email = true ∨
        env.user_manager.enable_confirm_email = true) → x.email = "" →
      send_confirm_email_email env user (some x) link = .assert_failed [] "email") ∧
    (env.user_manager.enable_forgot_password = true → x.email = "" →
      send_forgot_password_email env user (some x) link = .assert_failed [] "email") ∧
    (env.user_manager.send_registered_email = true → x.email = "" →
      send_registered_email env user (some x) link = .assert_failed [] "email") ∧
    (env.user_manager.send_password_changed_email = true →
      get_primary_user_email env user = .user_email x → x.email = "" →
      send_password_changed_email env user = .assert_failed [] "email") ∧
    (env.user_manager.send_username_changed_email = true →
      get_primary_user_email env user = .user_email x → x.email = "" →
      send_username_changed_email env user = .assert_failed [] "email") ∧
    (env.user_manager.send_password_changed_email = true →
      get_primary_user_email env user = .user_obj user → user.email = "" →
      send_password_changed_email env user = .assert_failed [] "email") ∧
    (env.user_manager.send_username_changed_email = true →
      get_primary_user_email env user = .user_obj user → user.email = "" →
      send_username_changed_email env user = .assert_failed [] "email") ∧
    sentTo (send_invite_email env user link) = some user.email := by
  refine ⟨?_, ?_, ?_, ?_, ?_, ?_, ?_, ?_, ?_, ?_, ?_, ?_, ?_, ?_⟩
  · rintro (hf | hf) hne <;>
      simp [send_confirm_email_email, hee, hf, hne, sentTo, firstSent]
  · intro hf hne
    simp [send_forgot_password_email, hee, hf, hne, sentTo, firstSent]
  · intro hf hne
    simp [send_registered_email, hee, hf, hne, sentTo, firstSent]
  · rintro (hf | hf) hne <;>
      simp [send_confirm_email_email, hee, hf, hne, sentTo, firstSent]
  · intro hf hne
    simp [send_forgot_password_email, hee, hf, hne, sentTo, firstSent]
  · intro hf hne
    simp [send_registered_email, hee, hf, hne, sentTo, firstSent]
  · rintro (hf | hf) hemp <;>
      simp [send_confirm_email_email, hee, hf, hemp]
  · intro hf hemp
    simp [send_forgot_password_email, hee, hf, hemp]
  · intro hf hemp
    simp [send_registered_email, hee, hf, hemp]
  · intro hf hgp hemp
    simp [send_password_changed_email, hee, hf, hgp, hemp]
  · intro hf hgp hemp
    simp [send_username_changed_email, hee, hf, hgp, hemp]
  · intro hf hgp hemp
    simp [send_password_changed_email, hee, hf, hgp, hemp]
  · intro hf hgp hemp
    simp [send_username_changed_email, hee, hf, hgp, hemp]
  · simp [send_invite_email, hee, sentTo, firstSent]

/-- Witness for C3 at concrete inputs: a differing UserEmail address wins, a
missing UserEmail falls back to the User address, an empty supplied address
trips the assertion with an empty trace, and invite sends to the User
address. -/
theorem recipient_resolution_spec_witness :
    sentTo (send_confirm_email_email envAll userW (some ueOther) "L") =
      some "other@example.com" ∧
    sentTo (send_registered_email envAll userW none "L") = some "user@example.com" ∧
    send_forgot_password_email envAll userW (some ueEmpty) "L" =
      .assert_failed [] "email" ∧
    sentTo (send_invite_email envAll userW "L") = some "user@example.com" := by
  obtain ⟨c1, -, -, -, -, c6, -, -, -, -, -, -, -, c14⟩ :=
    recipient_resolution_spec envAll userW ueOther "L" rfl
  obtain ⟨-, -, -, -, -, -, -, d8, -, -, -, -, -, -⟩ :=
    recipient_resolution_spec envAll userW ueEmpty "L" rfl
  exact ⟨c1 (Or.inl rfl) (by decide), c6 rfl (by decide), d8 rfl rfl, c14⟩

/-- Counterexample to C3 as stated: in send_invite_email an empty resolved
address does not fail an assertion — the call renders and sends to the empty
recipient address. -/
theorem recipient_resolution_counterexample :
    userNoEmail.email = "" ∧
    send_invite_email envAll userNoEmail "http://invite" =
      .done [.rendered "invite",
             .sent "" "invite_subject.txt" "invite_message.html"
               "invite_message.txt" "invite"] :=
  ⟨rfl, by decide⟩

/-- C10: with no UserEmailClass configured, the primary-email lookup returns
the user object itself, so the password-changed and username-changed
orchestrators fall back to the email attribute of the User; the lookup
yields Python None — and hence the user_email assertion can fire — exactly
when a UserEmailClass exists and the primary lookup finds nothing. -/
theorem primary_email_fallback_spec (env : AppEnv) (user : User) :
    (env.user_manager.db_adapter.UserEmailClass = false →
      get_primary_user_email env user = .user_obj user) ∧
    (env.user_manager.db_adapter.UserEmailClass = false →
      env.user_manager.enable_email = true →
      env.user_manager.send_password_changed_email = true → user.email ≠ "" →
      sentTo (send_password_changed_email env user) = some user.email) ∧
    (env.user_manager.db_adapter.UserEmailClass = false →
      env.user_manager.enable_email = true →
      env.user_manager.send_username_changed_email = true → user.email ≠ "" →
      sentTo (send_username_changed_email env user) = some user.email) ∧
    (get_primary_user_email env user = .none_obj ↔
      env.user_manager.db_adapter.UserEmailClass = true ∧
      env.user_manager.db_adapter.find_first_object user.id = none) ∧
    (send_password_changed_email env user = .assert_failed [] "user_email" →
      env.user_manager.db_adapter.UserEmailClass = true ∧
      env.user_manager.db_adapter.find_first_object user.id = none) ∧
    (send_username_changed_email env user = .assert_failed [] "user_email" →
      env.user_manager.db_adapter.UserEmailClass = true ∧
      env.user_manager.db_adapter.find_first_object user.id = none) := by
  have hiff : get_primary_user_email env user = .none_obj ↔
      env.user_manager.db_adapter.UserEmailClass = true ∧
      env.user_manager.db_adapter.find_first_object user.id = none := by
    cases hc : env.user_manager.db_adapter.UserEmailClass with
    | false => simp [get_primary_user_email, hc]
    | true =>
      cases hf : env.user_manager.db_adapter.find_first_object user.id with
      | none => simp [get_primary_user_email, hc, hf]
      | some ue => simp [get_primary_user_email, hc, hf]
  refine ⟨?_, ?_, ?_, hiff, ?_, ?_⟩
  · intro hc; simp [get_primary_user_email, hc]
  · intro hc hee hpc hne
    simp [send_password_changed_email, get_primary_user_email, hc, hee, hpc, hne,
      sentTo, firstSent]
  · intro hc hee huc hne
    simp [send_username_changed_email, get_primary_user_email, hc, hee, huc, hne,
      sentTo, firstSent]
  · intro hr
    rw [← hiff]
    by_cases h1 : env.user_manager.enable_email
    · by_cases h2 : env.user_manager.send_password_changed_email
      · rcases hgp : get_primary_user_email env user with ue | - | u
        · by_cases h3 : ue.email = "" <;>
            simp [send_password_changed_email, h1, h2, hgp, h3] at hr
        · rfl
        · by_cases h3 : u.email = "" <;>
            simp [send_password_changed_email, h1, h2, hgp, h3] at hr
      · simp [send_password_changed_email, h1, h2] at hr
    · simp [send_password_changed_email, h1] at hr
  · intro hr
    rw [← hiff]
    by_cases h1 : env.user_manager.enable_email
    · by_cases h2 : env.user_manager.send_username_changed_email
      · rcases hgp : get_primary_user_email env user with ue | - | u
        · by_cases h3 : ue.email = "" <;>
            simp [send_username_changed_email, h1, h2, hgp, h3] at hr
        · rfl
        · by_cases h3 : u.email = "" <;>
            simp [send_username_changed_email, h1, h2, hgp, h3] at hr
      · simp [send_username_changed_email, h1, h2] at hr
    · simp [send_username_changed_email, h1] at hr

/-- Witness for C10 at a concrete environment with no UserEmailClass: the
lookup returns the user object and both orchestrators send to the email
attribute of the User. -/
theorem primary_email_fallback_spec_witness :
    get_primary_user_email envAll userW = .user_obj userW ∧
    sentTo (send_password_changed_email envAll userW) = some "user@example.com" ∧
    sentTo (send_username_changed_email envAll userW) = some "user@example.com" := by
  obtain ⟨a1, a2, a3, -, -, -⟩ := primary_email_fallback_spec envAll userW
  exact ⟨a1 rfl, a2 rfl rfl rfl (by decide), a3 rfl rfl rfl (by decide)⟩
